import Mathlib

/-!
Verification of the DVI HSTX scanline-generation engine
(src/dvi_out_hstx_encoder.c) against its natural-language specification.

The C file drives a DVI output: three constant HSTX command lists encode the
horizontal timing of blanking and active lines, and a DMA completion handler
(dma_irq_handler) reprograms the just-finished ping/pong channel with the
next line payload, driven by a vertical scanline counter.  Below, the
constants, the command tables and the handler are embedded shallowly:
machine unsigned integers become Nat (all values involved stay far below
2^32, except where a mod is written explicitly), the handler becomes a pure
step function on an explicit state record, and the DMA channel-descriptor
write it performs becomes an explicit output record.
-/

/- ------------------------------------------------------------------ -/
/- DVI constants (lines 39-72 of the source)                           -/
/- ------------------------------------------------------------------ -/

def TMDS_CTRL_00 : Nat := 0x354
def TMDS_CTRL_01 : Nat := 0x0ab
def TMDS_CTRL_10 : Nat := 0x154
def TMDS_CTRL_11 : Nat := 0x2ab

def SYNC_V0_H0 : Nat := TMDS_CTRL_00 ||| (TMDS_CTRL_00 <<< 10) ||| (TMDS_CTRL_00 <<< 20)
def SYNC_V0_H1 : Nat := TMDS_CTRL_01 ||| (TMDS_CTRL_00 <<< 10) ||| (TMDS_CTRL_00 <<< 20)
def SYNC_V1_H0 : Nat := TMDS_CTRL_10 ||| (TMDS_CTRL_00 <<< 10) ||| (TMDS_CTRL_00 <<< 20)
def SYNC_V1_H1 : Nat := TMDS_CTRL_11 ||| (TMDS_CTRL_00 <<< 10) ||| (TMDS_CTRL_00 <<< 20)

def MODE_H_SYNC_POLARITY : Nat := 0

def MODE_V_SYNC_POLARITY : Nat := 0

def MODE_H_FRONT_PORCH : Nat := 16
def MODE_H_SYNC_WIDTH : Nat := 96
def MODE_H_BACK_PORCH : Nat := 48
def MODE_H_ACTIVE_PIXELS : Nat := 640

def MODE_V_FRONT_PORCH : Nat := 10
def MODE_V_SYNC_WIDTH : Nat := 2
def MODE_V_BACK_PORCH : Nat := 33
def MODE_V_ACTIVE_LINES : Nat := 480

def MODE_H_TOTAL_PIXELS : Nat :=
  MODE_H_FRONT_PORCH + MODE_H_SYNC_WIDTH + MODE_H_BACK_PORCH + MODE_H_ACTIVE_PIXELS

def MODE_V_TOTAL_LINES : Nat :=
  MODE_V_FRONT_PORCH + MODE_V_SYNC_WIDTH + MODE_V_BACK_PORCH + MODE_V_ACTIVE_LINES

def HSTX_CMD_RAW_REPEAT : Nat := 0x1 <<< 12
def HSTX_CMD_TMDS : Nat := 0x2 <<< 12
def HSTX_CMD_NOP : Nat := 0xf <<< 12

/- ------------------------------------------------------------------ -/
/- HSTX command lists (lines 80-107 of the source)                     -/
/- ------------------------------------------------------------------ -/

def vblank_line_vsync_off : List Nat :=
  [ HSTX_CMD_RAW_REPEAT ||| MODE_H_FRONT_PORCH,
    SYNC_V1_H1,
    HSTX_CMD_RAW_REPEAT ||| MODE_H_SYNC_WIDTH,
    SYNC_V1_H0,
    HSTX_CMD_RAW_REPEAT ||| (MODE_H_BACK_PORCH + MODE_H_ACTIVE_PIXELS),
    SYNC_V1_H1,
    HSTX_CMD_NOP ]

def vblank_line_vsync_on : List Nat :=
  [ HSTX_CMD_RAW_REPEAT ||| MODE_H_FRONT_PORCH,
    SYNC_V0_H1,
    HSTX_CMD_RAW_REPEAT ||| MODE_H_SYNC_WIDTH,
    SYNC_V0_H0,
    HSTX_CMD_RAW_REPEAT ||| (MODE_H_BACK_PORCH + MODE_H_ACTIVE_PIXELS),
    SYNC_V0_H1,
    HSTX_CMD_NOP ]

def vactive_line : List Nat :=
  [ HSTX_CMD_RAW_REPEAT ||| MODE_H_FRONT_PORCH,
    SYNC_V1_H1,
    HSTX_CMD_NOP,
    HSTX_CMD_RAW_REPEAT ||| MODE_H_SYNC_WIDTH,
    SYNC_V1_H0,
    HSTX_CMD_NOP,
    HSTX_CMD_RAW_REPEAT ||| MODE_H_BACK_PORCH,
    SYNC_V1_H1,
    HSTX_CMD_TMDS ||| MODE_H_ACTIVE_PIXELS ]

/- ------------------------------------------------------------------ -/
/- DMA state machine (lines 112-201 of the source)                     -/
/- ------------------------------------------------------------------ -/

/-- The two DMA channels, DMACH_PING = 0 and DMACH_PONG = 1. -/
inductive Channel where
  | ping
  | pong
deriving DecidableEq

/-- The mutable globals of the engine: dma_pong, v_scanline,
vactive_cmdlist_posted (lines 116-125). -/
structure EngineState where
  dma_pong : Bool
  v_scanline : Nat
  vactive_cmdlist_posted : Bool
deriving DecidableEq

/-- The possible values the handler stores into the channel read_addr
field: one of the three constant command lists, or the tempbuf scratch
row buffer (the RGB332 build is the active one). -/
inductive ReadAddr where
  | vblank_on
  | vblank_off
  | vactive
  | tempbuf_addr
deriving DecidableEq

/-- What one invocation of dma_irq_handler writes: the single channel
descriptor it reprograms (ch, read_addr, transfer_count) and, in the
RGB332 pixel phase, the framebuffer row it copies into tempbuf. -/
structure HandlerOutput where
  ch : Channel
  read_addr : ReadAddr
  transfer_count : Nat
  row_copied : Option Nat
deriving DecidableEq

/-- Shallow embedding of dma_irq_handler (lines 131-201, RBG332 build).
The channel is selected from dma_pong before the toggle; the final
conditional increment of v_scanline (line 196-200) reads the updated
vactive_cmdlist_posted, so it is folded into each branch with the value
the flag has at that point. -/
def dma_irq_handler (s : EngineState) : EngineState × HandlerOutput :=
  if MODE_V_FRONT_PORCH ≤ s.v_scanline ∧
      s.v_scanline < MODE_V_FRONT_PORCH + MODE_V_SYNC_WIDTH then
    (⟨!s.dma_pong,
      if s.vactive_cmdlist_posted = false then
        (s.v_scanline + 1) % MODE_V_TOTAL_LINES
      else s.v_scanline,
      s.vactive_cmdlist_posted⟩,
     ⟨if s.dma_pong then Channel.pong else Channel.ping,
      ReadAddr.vblank_on, vblank_line_vsync_on.length, none⟩)
  else if s.v_scanline < MODE_V_FRONT_PORCH + MODE_V_SYNC_WIDTH + MODE_V_BACK_PORCH then
    (⟨!s.dma_pong,
      if s.vactive_cmdlist_posted = false then
        (s.v_scanline + 1) % MODE_V_TOTAL_LINES
      else s.v_scanline,
      s.vactive_cmdlist_posted⟩,
     ⟨if s.dma_pong then Channel.pong else Channel.ping,
      ReadAddr.vblank_off, vblank_line_vsync_off.length, none⟩)
  else if s.vactive_cmdlist_posted = false then
    (⟨!s.dma_pong, s.v_scanline, true⟩,
     ⟨if s.dma_pong then Channel.pong else Channel.ping,
      ReadAddr.vactive, vactive_line.length, none⟩)
  else
    (⟨!s.dma_pong, (s.v_scanline + 1) % MODE_V_TOTAL_LINES, false⟩,
     ⟨if s.dma_pong then Channel.pong else Channel.ping,
      ReadAddr.tempbuf_addr, MODE_H_ACTIVE_PIXELS / 4,
      some (s.v_scanline - (MODE_V_TOTAL_LINES - MODE_V_ACTIVE_LINES))⟩)

def stepState (s : EngineState) : EngineState := (dma_irq_handler s).1

def stepOut (s : EngineState) : HandlerOutput := (dma_irq_handler s).2

/-- Initial values of the globals: dma_pong = false, v_scanline = 2,
vactive_cmdlist_posted = false (lines 116-125). -/
def initState : EngineState := ⟨false, 2, false⟩

/-- n handler invocations starting from state s. -/
def iterState : Nat → EngineState → EngineState
  | 0, s => s
  | n + 1, s => iterState n (stepState s)

/-- State after n handler invocations from the initial state. -/
def stepN (n : Nat) : EngineState := iterState n initState

def Reachable (s : EngineState) : Prop := ∃ n, stepN n = s

/-- The payload a handler invocation posts, without the channel choice:
the source selected for read_addr, the transfer count, and (in the pixel
phase) the framebuffer row whose bytes end up in tempbuf. -/
structure Payload where
  read_addr : ReadAddr
  transfer_count : Nat
  row_copied : Option Nat
deriving DecidableEq

def payloadOf (s : EngineState) : Payload :=
  ⟨(stepOut s).read_addr, (stepOut s).transfer_count, (stepOut s).row_copied⟩

/-- The sequence of payloads posted by n consecutive handler invocations
starting from state s. -/
def traceFrom (s : EngineState) : Nat → List Payload
  | 0 => []
  | n + 1 => payloadOf s :: traceFrom (stepState s) n

/- ------------------------------------------------------------------ -/
/- RGB332 pixel-phase memory accesses (lines 130, 160-177)             -/
/- ------------------------------------------------------------------ -/

/-- Modelled from the spec: the RGB332 image asset
mario_640x480_rgb332 is included from a header that is not under src/;
per the spec and the asset name it is a row-major 640 x 480 image at one
byte per pixel, so the char array framebuf holds 640 * 480 bytes. -/
def FRAMEBUF_RGB332_BYTES : Nat := 640 * 480

/-- Size of the tempbuf scratch buffer, char tempbuf[640] (line 130). -/
def tempbuf_len : Nat := 640

/-- The copy loop of the RGB332 pixel phase (lines 162-165): byte i of
tempbuf becomes framebuf[row * MODE_H_ACTIVE_PIXELS + i] for i in
[0, 640); bytes at other indices are untouched. The byte arrays are
modelled as functions from index to byte value. -/
def copy_row (framebuf tempbuf : Nat → Nat) (row : Nat) : Nat → Nat :=
  fun i =>
    if i < 640 then framebuf (row * MODE_H_ACTIVE_PIXELS + i) else tempbuf i

/- ------------------------------------------------------------------ -/
/- RGB565 build pixel-phase addressing (lines 178-190, the non-RBG332  -/
/- build)                                                              -/
/- ------------------------------------------------------------------ -/

/-- Modelled from the spec: the RGB565 image asset
mario_640x240_rgb565 is included from a header that is not under src/;
per the spec it holds only 240 of the 480 active rows, row-major, two
bytes per pixel, so the asset occupies 640 * 240 * 2 bytes. -/
def RGB565_ASSET_BYTES : Nat := 640 * 240 * 2

/-- Byte offset into the RGB565 asset from which the pixel phase reads,
as a function of v_scanline (lines 181-188): an index-range test selects
an extra offset of 239 rows for the lower half of the frame. -/
def rgb565_read_off (v : Nat) : Nat :=
  if 523 - 480 + 240 < v then
    (v - 239 - (MODE_V_TOTAL_LINES - MODE_V_ACTIVE_LINES)) * MODE_H_ACTIVE_PIXELS * 2
  else
    (v - (MODE_V_TOTAL_LINES - MODE_V_ACTIVE_LINES)) * MODE_H_ACTIVE_PIXELS * 2

/-- Transfer count of the RGB565 pixel phase (line 189):
MODE_H_ACTIVE_PIXELS * 2 / sizeof uint32_t words. -/
def rgb565_transfer_count : Nat := MODE_H_ACTIVE_PIXELS * 2 / 4

/- ------------------------------------------------------------------ -/
/- Colour packing (lines 206-216)                                      -/
/- ------------------------------------------------------------------ -/

/-- colour_rgb565 (lines 206-210): the arithmetic happens after integer
promotion and the result is truncated back to uint16_t, hence the final
mod 2^16. -/
def colour_rgb565 (r g b : Nat) : Nat :=
  (((r &&& 0xf8) >>> 3) ||| ((g &&& 0xfc) <<< 3) ||| ((b &&& 0xf8) <<< 8)) % 65536

/-- colour_rgb332 (lines 212-216): result truncated to uint8_t. -/
def colour_rgb332 (r g b : Nat) : Nat :=
  (((r &&& 0xc0) >>> 6) ||| ((g &&& 0xe0) >>> 3) ||| ((b &&& 0xe0) >>> 0)) % 256

/- Decoders written from the claim: the packed layouts put red in the
low bits, then green, then blue. -/

def decode332_r (c : Nat) : Nat := c &&& 0x3
def decode332_g (c : Nat) : Nat := (c >>> 2) &&& 0x7
def decode332_b (c : Nat) : Nat := (c >>> 5) &&& 0x7

def decode565_r (c : Nat) : Nat := c &&& 0x1f
def decode565_g (c : Nat) : Nat := (c >>> 5) &&& 0x3f
def decode565_b (c : Nat) : Nat := (c >>> 11) &&& 0x1f

/-- Key invariant of the handler state machine: the vertical counter
stays below the vertical total of 525, and the sub-phase flag is raised
only inside the active region, which starts at line
MODE_V_FRONT_PORCH + MODE_V_SYNC_WIDTH + MODE_V_BACK_PORCH = 45. -/
def EngineInv (s : EngineState) : Prop :=
  s.v_scanline < 525 ∧ (s.vactive_cmdlist_posted = true → 45 ≤ s.v_scanline)

/-- Three 10-bit TMDS control codes packed at bit offsets 0, 10 and 20
of one 32-bit word, as the SYNC_ macros do (lines 44-47). -/
def pack3 (a b c : Nat) : Nat := a ||| (b <<< 10) ||| (c <<< 20)

/- ------------------------------------------------------------------ -/
/- Helper lemmas                                                       -/
/- ------------------------------------------------------------------ -/

lemma stepState_iterState (n : Nat) (s : EngineState) :
    stepState (iterState n s) = iterState n (stepState s) := by
  induction n generalizing s with
  | zero => rfl
  | succ n ih => simpa [iterState] using ih (stepState s)

lemma stepN_succ (n : Nat) : stepN (n + 1) = stepState (stepN n) := by
  simp [stepN, iterState, stepState_iterState]

lemma iterState_add (m n : Nat) (s : EngineState) :
    iterState (m + n) s = iterState n (iterState m s) := by
  induction m generalizing s with
  | zero => rw [Nat.zero_add]; rfl
  | succ m ih =>
    have h : m + 1 + n = (m + n) + 1 := by omega
    rw [h]
    show iterState (m + n) (stepState s) = iterState n (iterState (m + 1) s)
    rw [ih]
    rfl

lemma engineInv_init : EngineInv initState := by
  constructor <;> simp [initState]

lemma engineInv_step (s : EngineState) (h : EngineInv s) : EngineInv (stepState s) := by
  obtain ⟨h1, h2⟩ := h
  rcases s with ⟨p, v, f⟩
  simp only [EngineInv, stepState, dma_irq_handler,
    MODE_V_FRONT_PORCH, MODE_V_SYNC_WIDTH, MODE_V_BACK_PORCH,
    MODE_V_TOTAL_LINES, MODE_V_ACTIVE_LINES, MODE_H_ACTIVE_PIXELS] at *
  split_ifs with hc1 hc2 hc3 <;> simp_all <;> omega

lemma engineInv_stepN (n : Nat) : EngineInv (stepN n) := by
  induction n with
  | zero => exact engineInv_init
  | succ n ih => rw [stepN_succ]; exact engineInv_step _ ih

lemma reachable_inv (s : EngineState) (h : Reachable s) : EngineInv s := by
  obtain ⟨n, hn⟩ := h
  exact hn ▸ engineInv_stepN n

/- pong independence -/

lemma stepState_core (p q f : Bool) (v : Nat) :
    (stepState ⟨p, v, f⟩).v_scanline = (stepState ⟨q, v, f⟩).v_scanline ∧
    (stepState ⟨p, v, f⟩).vactive_cmdlist_posted = (stepState ⟨q, v, f⟩).vactive_cmdlist_posted := by
  simp only [stepState, dma_irq_handler]
  split_ifs <;> simp

lemma payloadOf_core (p q f : Bool) (v : Nat) :
    payloadOf ⟨p, v, f⟩ = payloadOf ⟨q, v, f⟩ := by
  simp only [payloadOf, stepOut, dma_irq_handler]
  split_ifs <;> rfl

lemma traceFrom_core (n : Nat) : ∀ s1 s2 : EngineState,
    s1.v_scanline = s2.v_scanline →
    s1.vactive_cmdlist_posted = s2.vactive_cmdlist_posted →
    traceFrom s1 n = traceFrom s2 n := by
  induction n with
  | zero => intro s1 s2 _ _; rfl
  | succ n ih =>
    intro s1 s2 hv hf
    rcases s1 with ⟨p1, v1, f1⟩
    rcases s2 with ⟨p2, v2, f2⟩
    simp only at hv hf
    subst hv hf
    have hcore := stepState_core p1 p2 f1 v1
    simp only [traceFrom]
    rw [payloadOf_core p1 p2 f1 v1, ih _ _ hcore.1 hcore.2]

lemma traceFrom_add (m n : Nat) : ∀ s : EngineState,
    traceFrom s (m + n) = traceFrom s m ++ traceFrom (iterState m s) n := by
  induction m with
  | zero => intro s; rw [Nat.zero_add]; rfl
  | succ m ih =>
    intro s
    have h : m + 1 + n = (m + n) + 1 := by omega
    rw [h]
    show payloadOf s :: traceFrom (stepState s) (m + n) = _
    rw [ih (stepState s)]
    rfl

set_option maxRecDepth 4000

lemma chunk1 : iterState 100 initState = ⟨false, 73, true⟩ := by decide
lemma chunk2 : iterState 100 (⟨false, 73, true⟩ : EngineState) = ⟨false, 123, true⟩ := by decide
lemma chunk3 : iterState 100 (⟨false, 123, true⟩ : EngineState) = ⟨false, 173, true⟩ := by decide
lemma chunk4 : iterState 100 (⟨false, 173, true⟩ : EngineState) = ⟨false, 223, true⟩ := by decide
lemma chunk5 : iterState 100 (⟨false, 223, true⟩ : EngineState) = ⟨false, 273, true⟩ := by decide
lemma chunk6 : iterState 100 (⟨false, 273, true⟩ : EngineState) = ⟨false, 323, true⟩ := by decide
lemma chunk7 : iterState 100 (⟨false, 323, true⟩ : EngineState) = ⟨false, 373, true⟩ := by decide
lemma chunk8 : iterState 100 (⟨false, 373, true⟩ : EngineState) = ⟨false, 423, true⟩ := by decide
lemma chunk9 : iterState 100 (⟨false, 423, true⟩ : EngineState) = ⟨false, 473, true⟩ := by decide
lemma chunk10 : iterState 100 (⟨false, 473, true⟩ : EngineState) = ⟨false, 523, true⟩ := by decide
lemma chunk11 : iterState 5 (⟨false, 523, true⟩ : EngineState) = ⟨true, 2, false⟩ := by decide

lemma iter1005 : iterState 1005 initState = ⟨true, 2, false⟩ := by
  have a2 : iterState 200 initState = ⟨false, 123, true⟩ := by
    rw [show (200 : Nat) = 100 + 100 from rfl, iterState_add, chunk1, chunk2]
  have a3 : iterState 300 initState = ⟨false, 173, true⟩ := by
    rw [show (300 : Nat) = 200 + 100 from rfl, iterState_add, a2, chunk3]
  have a4 : iterState 400 initState = ⟨false, 223, true⟩ := by
    rw [show (400 : Nat) = 300 + 100 from rfl, iterState_add, a3, chunk4]
  have a5 : iterState 500 initState = ⟨false, 273, true⟩ := by
    rw [show (500 : Nat) = 400 + 100 from rfl, iterState_add, a4, chunk5]
  have a6 : iterState 600 initState = ⟨false, 323, true⟩ := by
    rw [show (600 : Nat) = 500 + 100 from rfl, iterState_add, a5, chunk6]
  have a7 : iterState 700 initState = ⟨false, 373, true⟩ := by
    rw [show (700 : Nat) = 600 + 100 from rfl, iterState_add, a6, chunk7]
  have a8 : iterState 800 initState = ⟨false, 423, true⟩ := by
    rw [show (800 : Nat) = 700 + 100 from rfl, iterState_add, a7, chunk8]
  have a9 : iterState 900 initState = ⟨false, 473, true⟩ := by
    rw [show (900 : Nat) = 800 + 100 from rfl, iterState_add, a8, chunk9]
  have a10 : iterState 1000 initState = ⟨false, 523, true⟩ := by
    rw [show (1000 : Nat) = 900 + 100 from rfl, iterState_add, a9, chunk10]
  rw [show (1005 : Nat) = 1000 + 5 from rfl, iterState_add, a10, chunk11]

lemma trace_two_periods :
    traceFrom initState 2010 = traceFrom initState 1005 ++ traceFrom initState 1005 := by
  rw [show (2010 : Nat) = 1005 + 1005 from rfl, traceFrom_add, iter1005,
    traceFrom_core 1005 ⟨true, 2, false⟩ initState rfl rfl]

/- ------------------------------------------------------------------ -/
/- Colour packing lemmas                                               -/
/- ------------------------------------------------------------------ -/

lemma mask332_r : ∀ r, r < 256 → (r &&& 0xc0) >>> 6 = r >>> 6 := by decide
lemma mask332_g : ∀ g, g < 256 → (g &&& 0xe0) >>> 3 = (g >>> 5) <<< 2 := by decide
lemma mask332_b : ∀ b, b < 256 → (b &&& 0xe0) >>> 0 = (b >>> 5) <<< 5 := by decide
lemma mask565_r : ∀ r, r < 256 → (r &&& 0xf8) >>> 3 = r >>> 3 := by decide
lemma mask565_g : ∀ g, g < 256 → (g &&& 0xfc) <<< 3 = (g >>> 2) <<< 5 := by decide
lemma mask565_b : ∀ b, b < 256 → (b &&& 0xf8) <<< 8 = (b >>> 3) <<< 11 := by decide
lemma shr6_lt : ∀ r, r < 256 → r >>> 6 < 4 := by decide
lemma shr5_lt : ∀ g, g < 256 → g >>> 5 < 8 := by decide
lemma shr3_lt : ∀ r, r < 256 → r >>> 3 < 32 := by decide
lemma shr2_lt : ∀ g, g < 256 → g >>> 2 < 64 := by decide

lemma pack332_rt : ∀ x, x < 4 → ∀ y, y < 8 → ∀ z, z < 8 →
    decode332_r ((x ||| (y <<< 2) ||| (z <<< 5)) % 256) = x ∧
    decode332_g ((x ||| (y <<< 2) ||| (z <<< 5)) % 256) = y ∧
    decode332_b ((x ||| (y <<< 2) ||| (z <<< 5)) % 256) = z := by decide

lemma pack565_rt : ∀ x, x < 32 → ∀ y, y < 64 → ∀ z, z < 32 →
    decode565_r ((x ||| (y <<< 5) ||| (z <<< 11)) % 65536) = x ∧
    decode565_g ((x ||| (y <<< 5) ||| (z <<< 11)) % 65536) = y ∧
    decode565_b ((x ||| (y <<< 5) ||| (z <<< 11)) % 65536) = z := by
  intro x hx y hy z hz
  have hx5 : x < 2 ^ 5 := by simpa using hx
  have hy6 : y < 2 ^ 6 := by simpa using hy
  have hz5 : z < 2 ^ 5 := by simpa using hz
  have hx2 : ∀ i, 5 ≤ i → x.testBit i = false := fun i hi =>
    Nat.testBit_lt_two_pow
      (lt_of_lt_of_le hx5 (Nat.pow_le_pow_right (by norm_num) hi))
  have hy2 : ∀ i, 6 ≤ i → y.testBit i = false := fun i hi =>
    Nat.testBit_lt_two_pow
      (lt_of_lt_of_le hy6 (Nat.pow_le_pow_right (by norm_num) hi))
  have hz2 : ∀ i, 5 ≤ i → z.testBit i = false := fun i hi =>
    Nat.testBit_lt_two_pow
      (lt_of_lt_of_le hz5 (Nat.pow_le_pow_right (by norm_num) hi))
  refine ⟨?_, ?_, ?_⟩
  · apply Nat.eq_of_testBit_eq
    intro i
    show ((x ||| (y <<< 5) ||| (z <<< 11)) % 2 ^ 16 &&& (2 ^ 5 - 1)).testBit i
      = x.testBit i
    simp only [Nat.testBit_land, Nat.testBit_mod_two_pow, Nat.testBit_lor,
      Nat.testBit_shiftLeft, Nat.testBit_two_pow_sub_one]
    by_cases h5 : i < 5
    · simp [h5, show i < 16 by omega, show ¬ 5 ≤ i by omega,
        show ¬ 11 ≤ i by omega]
    · simp [h5, hx2 i (by omega)]
  · apply Nat.eq_of_testBit_eq
    intro i
    show ((((x ||| (y <<< 5) ||| (z <<< 11)) % 2 ^ 16) >>> 5) &&& (2 ^ 6 - 1)).testBit i
      = y.testBit i
    simp only [Nat.testBit_land, Nat.testBit_shiftRight, Nat.testBit_mod_two_pow,
      Nat.testBit_lor, Nat.testBit_shiftLeft, Nat.testBit_two_pow_sub_one]
    by_cases h6 : i < 6
    · simp [h6, show 5 + i < 16 by omega, show 5 ≤ 5 + i by omega,
        show ¬ 11 ≤ 5 + i by omega, hx2 (5 + i) (by omega),
        show 5 + i - 5 = i by omega]
    · simp [h6, hy2 i (by omega)]
  · apply Nat.eq_of_testBit_eq
    intro i
    show ((((x ||| (y <<< 5) ||| (z <<< 11)) % 2 ^ 16) >>> 11) &&& (2 ^ 5 - 1)).testBit i
      = z.testBit i
    simp only [Nat.testBit_land, Nat.testBit_shiftRight, Nat.testBit_mod_two_pow,
      Nat.testBit_lor, Nat.testBit_shiftLeft, Nat.testBit_two_pow_sub_one]
    by_cases h5 : i < 5
    · simp [h5, show 11 + i < 16 by omega, show 5 ≤ 11 + i by omega,
        show 11 ≤ 11 + i by omega, hx2 (11 + i) (by omega),
        show 11 + i - 5 = 6 + i by omega, hy2 (6 + i) (by omega),
        show 11 + i - 11 = i by omega]
    · simp [h5, hz2 i (by omega)]

/- ------------------------------------------------------------------ -/
/- Claim theorems                                                      -/
/- ------------------------------------------------------------------ -/

/-- Claim C1: in the active-video region (v_scanline at or above 45), an
invocation with the header not yet posted posts the active-line header,
sets the flag and leaves v_scanline unchanged; the next invocation (flag
set) posts a pixel row, clears the flag and advances v_scanline by one;
for every blanking line one invocation advances v_scanline by one.  (The
blanking case uses reachability: in every reachable blanking state the
flag is down, so the line completes in exactly one invocation.) -/
theorem claim_C1_active_line_two_invocations (s : EngineState) (hr : Reachable s) :
    (45 ≤ s.v_scanline → s.vactive_cmdlist_posted = false →
      (stepOut s).read_addr = ReadAddr.vactive ∧
      (stepState s).vactive_cmdlist_posted = true ∧
      (stepState s).v_scanline = s.v_scanline) ∧
    (45 ≤ s.v_scanline → s.vactive_cmdlist_posted = true →
      (stepOut s).read_addr = ReadAddr.tempbuf_addr ∧
      (stepState s).vactive_cmdlist_posted = false ∧
      (stepState s).v_scanline = (s.v_scanline + 1) % 525) ∧
    (s.v_scanline < 45 →
      (stepState s).vactive_cmdlist_posted = false ∧
      (stepState s).v_scanline = (s.v_scanline + 1) % 525) := by
  have hinv := reachable_inv s hr
  rcases s with ⟨p, v, f⟩
  obtain ⟨h1, h2⟩ := hinv
  simp only at h1 h2
  refine ⟨?_, ?_, ?_⟩ <;> intro hv <;>
    simp only [stepOut, stepState, dma_irq_handler,
      MODE_V_FRONT_PORCH, MODE_V_SYNC_WIDTH, MODE_V_BACK_PORCH,
      MODE_V_TOTAL_LINES, MODE_V_ACTIVE_LINES, MODE_H_ACTIVE_PIXELS] <;>
    split_ifs <;> simp_all <;> omega

theorem claim_C1_witness :
    (stepOut (stepN 43)).read_addr = ReadAddr.vactive ∧
    (stepState (stepN 43)).vactive_cmdlist_posted = true ∧
    (stepState (stepN 43)).v_scanline = (stepN 43).v_scanline :=
  (claim_C1_active_line_two_invocations (stepN 43) ⟨43, rfl⟩).1
    (by decide) (by decide)

/-- Claim C2: evaluation of the RGB565 pixel-phase addressing.  For
v_scanline 45..523 the 1280-byte row read stays inside the 640 x 240 x 2
byte asset, but at v_scanline = 524 the branch computes byte offset
(524 - 239 - 45) * 640 * 2 = 307200, which is exactly the size of the
asset: the final row of the frame is read entirely out of bounds.  The
claim that every row read falls within the 240 asset rows is therefore
false at this input. -/
theorem claim_C2_rgb565_out_of_bounds :
    rgb565_read_off 283 = 238 * 1280 ∧
    rgb565_read_off 284 = 0 ∧
    rgb565_read_off 523 + 1280 = RGB565_ASSET_BYTES ∧
    rgb565_read_off 524 = RGB565_ASSET_BYTES ∧
    ¬ rgb565_read_off 524 + 1280 ≤ RGB565_ASSET_BYTES := by decide

/-- Claim C3: with the configured timings the horizontal total is 800
and the vertical total 525; the handler posts the blanking-with-vsync
list exactly for v_scanline in [10, 12), the blanking-without-vsync list
exactly for v_scanline in [0, 10) and [12, 45), and the active-line
header exactly from v_scanline 45 on (when the flag is down). -/
theorem claim_C3_mode_timing (s : EngineState) :
    MODE_H_TOTAL_PIXELS = 800 ∧ MODE_V_TOTAL_LINES = 525 ∧
    ((stepOut s).read_addr = ReadAddr.vblank_on ↔
      10 ≤ s.v_scanline ∧ s.v_scanline < 12) ∧
    ((stepOut s).read_addr = ReadAddr.vblank_off ↔
      (s.v_scanline < 10 ∨ (12 ≤ s.v_scanline ∧ s.v_scanline < 45))) ∧
    ((stepOut s).read_addr = ReadAddr.vactive ↔
      (45 ≤ s.v_scanline ∧ s.vactive_cmdlist_posted = false)) := by
  rcases s with ⟨p, v, f⟩
  refine ⟨by decide, by decide, ?_, ?_, ?_⟩ <;>
    simp only [stepOut, dma_irq_handler,
      MODE_V_FRONT_PORCH, MODE_V_SYNC_WIDTH, MODE_V_BACK_PORCH] <;>
    split_ifs <;> simp_all <;> omega

theorem claim_C3_witness :
    (stepOut ⟨false, 11, false⟩).read_addr = ReadAddr.vblank_on ∧
    (stepOut ⟨false, 12, false⟩).read_addr = ReadAddr.vblank_off ∧
    (stepOut ⟨false, 45, false⟩).read_addr = ReadAddr.vactive :=
  ⟨(claim_C3_mode_timing ⟨false, 11, false⟩).2.2.1.mpr (by norm_num),
   (claim_C3_mode_timing ⟨false, 12, false⟩).2.2.2.1.mpr (by norm_num),
   (claim_C3_mode_timing ⟨false, 45, false⟩).2.2.2.2.mpr (by norm_num)⟩

/-- Claim C4: every invocation writes the descriptor of exactly the
channel selected by the dma_pong parity flag, the flag is toggled exactly
once per call, and consecutive invocations therefore reprogram
alternating channels (the channel written next call differs from the one
written this call, so a write never targets the channel started by the
chain and still transferring). -/
theorem claim_C4_alternating_channel (s : EngineState) :
    (stepOut s).ch = (if s.dma_pong then Channel.pong else Channel.ping) ∧
    (stepState s).dma_pong = !s.dma_pong ∧
    (stepOut (stepState s)).ch ≠ (stepOut s).ch := by
  have hch : ∀ t : EngineState,
      (stepOut t).ch = (if t.dma_pong then Channel.pong else Channel.ping) := by
    intro t
    simp only [stepOut, dma_irq_handler]
    split_ifs <;> rfl
  have hpong : ∀ t : EngineState, (stepState t).dma_pong = !t.dma_pong := by
    intro t
    simp only [stepState, dma_irq_handler]
    split_ifs <;> rfl
  refine ⟨hch s, hpong s, ?_⟩
  rw [hch (stepState s), hch s, hpong s]
  cases s.dma_pong <;> simp

theorem claim_C4_witness :
    (stepOut initState).ch = Channel.ping ∧
    (stepState initState).dma_pong = true ∧
    (stepOut (stepState initState)).ch ≠ (stepOut initState).ch := by
  have h := claim_C4_alternating_channel initState
  refine ⟨?_, ?_, h.2.2⟩
  · rw [h.1]; rfl
  · rw [h.2.1]; rfl

/-- Claim C5: the scanline counter starts at 2, and in every reachable
state it is below the vertical total of 525; one invocation either
leaves it unchanged (header phase) or performs the single increment
(v_scanline + 1) % MODE_V_TOTAL_LINES. -/
theorem claim_C5_scanline_counter (s : EngineState) (hr : Reachable s) :
    initState.v_scanline = 2 ∧ MODE_V_TOTAL_LINES = 525 ∧
    s.v_scanline < 525 ∧
    ((stepState s).v_scanline = s.v_scanline ∨
     (stepState s).v_scanline = (s.v_scanline + 1) % 525) := by
  have hinv := reachable_inv s hr
  refine ⟨rfl, by decide, hinv.1, ?_⟩
  rcases s with ⟨p, v, f⟩
  simp only [stepState, dma_irq_handler,
    MODE_V_FRONT_PORCH, MODE_V_SYNC_WIDTH, MODE_V_BACK_PORCH,
    MODE_V_TOTAL_LINES, MODE_V_ACTIVE_LINES, MODE_H_ACTIVE_PIXELS]
  split_ifs <;> simp_all

theorem claim_C5_witness :
    initState.v_scanline = 2 ∧ MODE_V_TOTAL_LINES = 525 ∧
    initState.v_scanline < 525 ∧
    ((stepState initState).v_scanline = initState.v_scanline ∨
     (stepState initState).v_scanline = (initState.v_scanline + 1) % 525) :=
  claim_C5_scanline_counter initState ⟨0, rfl⟩

/-- Claim C6: round-trip of colour packing.  For all byte inputs r, g, b
the RGB332 byte decodes back to the top 2 bits of r, the top 3 of g and
the top 3 of b, and the RGB565 word decodes back to the top 5 bits of r,
the top 6 of g and the top 5 of b. -/
theorem claim_C6_colour_roundtrip (r g b : Nat)
    (hr : r < 256) (hg : g < 256) (hb : b < 256) :
    (decode332_r (colour_rgb332 r g b) = r >>> 6 ∧
     decode332_g (colour_rgb332 r g b) = g >>> 5 ∧
     decode332_b (colour_rgb332 r g b) = b >>> 5) ∧
    (decode565_r (colour_rgb565 r g b) = r >>> 3 ∧
     decode565_g (colour_rgb565 r g b) = g >>> 2 ∧
     decode565_b (colour_rgb565 r g b) = b >>> 3) := by
  have h332 : colour_rgb332 r g b =
      ((r >>> 6) ||| ((g >>> 5) <<< 2) ||| ((b >>> 5) <<< 5)) % 256 := by
    unfold colour_rgb332
    rw [mask332_r r hr, mask332_g g hg, mask332_b b hb]
  have h565 : colour_rgb565 r g b =
      ((r >>> 3) ||| ((g >>> 2) <<< 5) ||| ((b >>> 3) <<< 11)) % 65536 := by
    unfold colour_rgb565
    rw [mask565_r r hr, mask565_g g hg, mask565_b b hb]
  rw [h332, h565]
  exact ⟨pack332_rt _ (shr6_lt r hr) _ (shr5_lt g hg) _ (shr5_lt b hb),
         pack565_rt _ (shr3_lt r hr) _ (shr2_lt g hg) _ (shr3_lt b hb)⟩

theorem claim_C6_witness :
    (decode332_r (colour_rgb332 222 173 190) = 222 >>> 6 ∧
     decode332_g (colour_rgb332 222 173 190) = 173 >>> 5 ∧
     decode332_b (colour_rgb332 222 173 190) = 190 >>> 5) ∧
    (decode565_r (colour_rgb565 222 173 190) = 222 >>> 3 ∧
     decode565_g (colour_rgb565 222 173 190) = 173 >>> 2 ∧
     decode565_b (colour_rgb565 222 173 190) = 190 >>> 3) :=
  claim_C6_colour_roundtrip 222 173 190 (by norm_num) (by norm_num) (by norm_num)

/-- Claim C7: one vertical period of 525 line-steps takes
45 + 2 * 480 = 1005 handler invocations (two per active line); the
payload sequence over two periods is the first period repeated twice,
byte for byte, and the (v_scanline, vactive_cmdlist_posted) pair returns
to its initial value after exactly one period of invocations. -/
theorem claim_C7_two_periods :
    traceFrom initState 2010 = traceFrom initState 1005 ++ traceFrom initState 1005 ∧
    (MODE_V_TOTAL_LINES - MODE_V_ACTIVE_LINES) + 2 * MODE_V_ACTIVE_LINES = 1005 ∧
    (stepN 1005).v_scanline = initState.v_scanline ∧
    (stepN 1005).vactive_cmdlist_posted = initState.vactive_cmdlist_posted := by
  refine ⟨trace_two_periods, by decide, ?_, ?_⟩ <;>
    rw [show stepN 1005 = iterState 1005 initState from rfl, iter1005] <;> rfl

/-- Claim C8: the four sync words are pairwise distinct and each packs
three 10-bit TMDS control codes at bit offsets 0, 10 and 20; with the
negative sync polarities of this mode (asserted = level 0), the
blanking-with-vsync list holds (vsync asserted, hsync inactive) for the
16-cycle front porch, (vsync asserted, hsync asserted) for the 96-cycle
sync pulse and (vsync asserted, hsync inactive) for the 688-cycle
back-porch-plus-active span; the blanking-without-vsync list has the
same horizontal structure with vsync deasserted; and the active-line
header interleaves no-ops between the three holds and ends with the
marker that streams exactly 640 TMDS pixels. -/
theorem claim_C8_command_tables :
    (SYNC_V0_H0 = pack3 TMDS_CTRL_00 TMDS_CTRL_00 TMDS_CTRL_00 ∧
     SYNC_V0_H1 = pack3 TMDS_CTRL_01 TMDS_CTRL_00 TMDS_CTRL_00 ∧
     SYNC_V1_H0 = pack3 TMDS_CTRL_10 TMDS_CTRL_00 TMDS_CTRL_00 ∧
     SYNC_V1_H1 = pack3 TMDS_CTRL_11 TMDS_CTRL_00 TMDS_CTRL_00) ∧
    (TMDS_CTRL_00 < 1024 ∧ TMDS_CTRL_01 < 1024 ∧
     TMDS_CTRL_10 < 1024 ∧ TMDS_CTRL_11 < 1024) ∧
    (SYNC_V0_H0 ≠ SYNC_V0_H1 ∧ SYNC_V0_H0 ≠ SYNC_V1_H0 ∧
     SYNC_V0_H0 ≠ SYNC_V1_H1 ∧ SYNC_V0_H1 ≠ SYNC_V1_H0 ∧
     SYNC_V0_H1 ≠ SYNC_V1_H1 ∧ SYNC_V1_H0 ≠ SYNC_V1_H1) ∧
    MODE_V_SYNC_POLARITY = 0 ∧ MODE_H_SYNC_POLARITY = 0 ∧
    vblank_line_vsync_on =
      [ HSTX_CMD_RAW_REPEAT ||| 16, SYNC_V0_H1,
        HSTX_CMD_RAW_REPEAT ||| 96, SYNC_V0_H0,
        HSTX_CMD_RAW_REPEAT ||| 688, SYNC_V0_H1,
        HSTX_CMD_NOP ] ∧
    vblank_line_vsync_off =
      [ HSTX_CMD_RAW_REPEAT ||| 16, SYNC_V1_H1,
        HSTX_CMD_RAW_REPEAT ||| 96, SYNC_V1_H0,
        HSTX_CMD_RAW_REPEAT ||| 688, SYNC_V1_H1,
        HSTX_CMD_NOP ] ∧
    vactive_line =
      [ HSTX_CMD_RAW_REPEAT ||| 16, SYNC_V1_H1, HSTX_CMD_NOP,
        HSTX_CMD_RAW_REPEAT ||| 96, SYNC_V1_H0, HSTX_CMD_NOP,
        HSTX_CMD_RAW_REPEAT ||| 48, SYNC_V1_H1,
        HSTX_CMD_TMDS ||| 640 ] := by decide

/-- Claim C9: in every reachable state the sub-phase flag implies the
scanline index lies in the active region [45, 525); the pixel-row branch
is never selected on a blanking line; and whenever a step wraps the
counter to 0 the flag is down afterwards. -/
theorem claim_C9_flag_invariant (s : EngineState) (hr : Reachable s) :
    (s.vactive_cmdlist_posted = true → 45 ≤ s.v_scanline ∧ s.v_scanline < 525) ∧
    (s.v_scanline < 45 → (stepOut s).read_addr ≠ ReadAddr.tempbuf_addr) ∧
    ((stepState s).v_scanline = 0 → (stepState s).vactive_cmdlist_posted = false) := by
  obtain ⟨n, hn⟩ := hr
  have hinv := reachable_inv s ⟨n, hn⟩
  have hinv2 : EngineInv (stepState s) := by
    rw [← hn, ← stepN_succ]
    exact engineInv_stepN (n + 1)
  refine ⟨fun hf => ⟨hinv.2 hf, hinv.1⟩, ?_, ?_⟩
  · intro hv
    rcases s with ⟨p, v, f⟩
    simp only at hv
    simp only [stepOut, dma_irq_handler,
      MODE_V_FRONT_PORCH, MODE_V_SYNC_WIDTH, MODE_V_BACK_PORCH]
    split_ifs <;> simp_all
  · intro hz
    rcases hf : (stepState s).vactive_cmdlist_posted with _ | _
    · rfl
    · exfalso
      have := hinv2.2 hf
      omega

theorem claim_C9_witness :
    ((stepN 44).vactive_cmdlist_posted = true →
      45 ≤ (stepN 44).v_scanline ∧ (stepN 44).v_scanline < 525) ∧
    ((stepN 44).v_scanline < 45 →
      (stepOut (stepN 44)).read_addr ≠ ReadAddr.tempbuf_addr) ∧
    ((stepState (stepN 44)).v_scanline = 0 →
      (stepState (stepN 44)).vactive_cmdlist_posted = false) :=
  claim_C9_flag_invariant (stepN 44) ⟨44, rfl⟩

/-- Claim C10: in every reachable pixel-phase state of the RGB332 build,
the scratch copy reads framebuf only at indices
(v_scanline - 45) * 640 + j with j below 640, all below 640 * 480; the
copy writes exactly the 640 bytes of tempbuf (bytes beyond index 639 are
untouched); and the posted transfer of 640 / 4 = 160 words covers
exactly the 640 bytes just written. -/
theorem claim_C10_pixel_phase_safety (s : EngineState) (hr : Reachable s)
    (hp : s.vactive_cmdlist_posted = true) (framebuf tempbuf : Nat → Nat) :
    (∀ j, j < 640 →
      (s.v_scanline - 45) * MODE_H_ACTIVE_PIXELS + j < FRAMEBUF_RGB332_BYTES) ∧
    (stepOut s).row_copied = some (s.v_scanline - 45) ∧
    (∀ j, j < 640 →
      copy_row framebuf tempbuf (s.v_scanline - 45) j =
        framebuf ((s.v_scanline - 45) * MODE_H_ACTIVE_PIXELS + j)) ∧
    (∀ j, tempbuf_len ≤ j →
      copy_row framebuf tempbuf (s.v_scanline - 45) j = tempbuf j) ∧
    (stepOut s).transfer_count = 640 / 4 ∧
    (640 / 4) * 4 = tempbuf_len := by
  have hinv := reachable_inv s hr
  have hv45 : 45 ≤ s.v_scanline := hinv.2 hp
  have hv525 : s.v_scanline < 525 := hinv.1
  refine ⟨?_, ?_, ?_, ?_, ?_, by decide⟩
  · intro j hj
    simp only [FRAMEBUF_RGB332_BYTES, MODE_H_ACTIVE_PIXELS]
    omega
  · rcases s with ⟨p, v, f⟩
    simp only at hp hv45
    simp only [stepOut, dma_irq_handler,
      MODE_V_FRONT_PORCH, MODE_V_SYNC_WIDTH, MODE_V_BACK_PORCH,
      MODE_V_TOTAL_LINES, MODE_V_ACTIVE_LINES]
    split_ifs <;> simp_all <;> omega
  · intro j hj
    simp [copy_row, hj]
  · intro j hj
    simp only [tempbuf_len] at hj
    simp [copy_row]
    omega
  · rcases s with ⟨p, v, f⟩
    simp only at hp hv45
    simp only [stepOut, dma_irq_handler,
      MODE_V_FRONT_PORCH, MODE_V_SYNC_WIDTH, MODE_V_BACK_PORCH,
      MODE_H_ACTIVE_PIXELS]
    split_ifs <;> simp_all <;> omega

theorem claim_C10_witness :
    (stepOut (stepN 44)).row_copied = some 0 ∧
    (stepOut (stepN 44)).transfer_count = 160 := by
  have h := claim_C10_pixel_phase_safety (stepN 44) ⟨44, rfl⟩ (by decide)
    (fun i => i) (fun i => i)
  have hv : (stepN 44).v_scanline = 45 := by decide
  constructor
  · rw [h.2.1, hv]
  · rw [h.2.2.2.2.1]
